import Mathlib

/-!
Verification development for the HPC job-orchestration core
(`src/services/base.py`, `src/ssh_client.py`, `src/servers.py`,
`src/clients.py`, `src/script_generator.py`, `src/base.py`).

Strings are modelled as `List Char` (`Str`), built from Lean string
literals via `chars`. Python dictionaries whose keys/values are strings
are modelled as association lists with first-match lookup; Python's
`{**a, **b}` merge is modelled by preferring the second dictionary's
binding. Timestamps (`time.time()`) are modelled as `Nat`. Remote
command execution is modelled by passing the observed
`(exitCode, stdout, stderr)` results as explicit arguments. A rendered
SLURM batch script is modelled as its list of lines (the Python code
builds `script_lines : List[str]` and joins with `"\n"`).
-/

set_option autoImplicit false

namespace HpcOrch

/-- Strings of the model: lists of characters. -/
abbrev Str := List Char

/-- Build a model string from a Lean string literal. -/
def chars (s : String) : Str := s.data

/-- First-match lookup in an association list, mirroring Python `dict.get`. -/
def dictGet : List (Str × Str) → Str → Option Str
  | [], _ => none
  | (k, v) :: rest, key => if k = key then some v else dictGet rest key

/-- Python `dict.get(key, default)`. -/
def dictGetD (d : List (Str × Str)) (key dflt : Str) : Str :=
  (dictGet d key).getD dflt

/-- Lookup into `{**defaults, **overrides}`: the override wins key-by-key. -/
def mergedGet (defaults overrides : List (Str × Str)) (key : Str) : Option Str :=
  match dictGet overrides key with
  | some v => some v
  | none => dictGet defaults key

/-- Python `str.isdigit()`: nonempty and all characters are digits. -/
def pyIsDigit (s : Str) : Bool := !s.isEmpty && s.all Char.isDigit

/-- Python `'sub' in s` (substring containment), as a Bool. -/
def isInfixB (sub s : Str) : Bool := decide (sub <:+: s)

/-- Python `s.startswith(p)`, as a Bool. -/
def isPrefixB (p s : Str) : Bool := decide (p <+: s)

/-- Python `str.strip()`: drop whitespace from both ends. -/
def pyStrip (l : Str) : Str :=
  ((l.dropWhile Char.isWhitespace).reverse.dropWhile Char.isWhitespace).reverse

/-- Python `s.split(sep)` for a single-character separator:
`"".split(c) = [""]`, separators delimit (possibly empty) fields. -/
def splitOnChar (sep : Char) : Str → List Str
  | [] => [[]]
  | c :: rest =>
    if c = sep then [] :: splitOnChar sep rest
    else
      match splitOnChar sep rest with
      | t :: ts => (c :: t) :: ts
      | [] => [[c]]

/-- Auxiliary for Python whitespace `str.split()`: `acc` holds the current
token reversed. -/
def wsTokensAux : Str → Str → List Str
  | [], acc => if acc = [] then [] else [acc.reverse]
  | c :: rest, acc =>
    if c.isWhitespace then
      if acc = [] then wsTokensAux rest []
      else acc.reverse :: wsTokensAux rest []
    else wsTokensAux rest (c :: acc)

/-- Python `str.split()` with no argument: whitespace-separated tokens,
empty tokens discarded. -/
def wsTokens (l : Str) : List Str := wsTokensAux l []

/-- `sep.join(parts)`. -/
def joinWith (sep : Str) : List Str → Str
  | [] => []
  | [p] => p
  | p :: rest => p ++ sep ++ joinWith sep rest

/-- The status enum of `src/base.py` (`ServiceStatus`). -/
inductive ServiceStatus where
  | pending
  | running
  | completed
  | failed
  | cancelled
deriving DecidableEq, Repr

/-- The tracking record of `src/base.py` (`JobInfo`). `jobId` is the
scheduler-assigned id, `serviceId` the locally generated internal id. -/
structure JobInfo where
  jobId : Str
  serviceId : Str
  status : ServiceStatus
  submittedAt : Nat
  startedAt : Option Nat := none
  completedAt : Option Nat := none
  nodes : Option (List Str) := none
deriving DecidableEq, Repr

/-- A lifecycle manager's tracking table (`self._running_instances`),
keyed by internal id. -/
abbrev Table := List (Str × JobInfo)

/-- Dictionary lookup in a tracking table (`table[sid]` / `sid in table`). -/
def lookupTbl : Table → Str → Option JobInfo
  | [], _ => none
  | (k, v) :: rest, key => if k = key then some v else lookupTbl rest key

/-- In-place mutation of the entry stored under `key` (Python mutates the
`JobInfo` object held in the dict). -/
def updateTbl : Table → Str → JobInfo → Table
  | [], _, _ => []
  | (k, v) :: rest, key, nv =>
    if k = key then (k, nv) :: rest else (k, v) :: updateTbl rest key nv

/-- Python dict assignment `table[key] = v`: replace if present, else add. -/
def insertTbl (t : Table) (k : Str) (v : JobInfo) : Table :=
  if (lookupTbl t k).isSome then updateTbl t k v else t ++ [(k, v)]

theorem lookupTbl_updateTbl_self (t : Table) (k : Str) (nv : JobInfo) :
    (lookupTbl t k).isSome → lookupTbl (updateTbl t k nv) k = some nv := by
  induction t with
  | nil => intro h; simp [lookupTbl] at h
  | cons p rest ih =>
    intro h
    by_cases hk : p.1 = k
    · simp [lookupTbl, updateTbl, hk]
    · simp [lookupTbl, updateTbl, hk] at h ⊢
      exact ih h

/-! ### Global configuration (the parsed `config` dict, as read by the code)

Only the keys the embedded functions actually read are modelled.
`containersBasePath` stands for `config.get('containers', {}).get('base_path', '')`
(so the empty string means "absent"), and similarly for the other container
fields; `slurm` keeps the raw `config.get('slurm', {})` dictionary because
absence of its `account` key is significant. -/

structure GlobalConfig where
  slurm : List (Str × Str)
  containersBasePath : Str := []
  containersForceRebuild : Bool := false
  containersDockerSources : List (Str × Str) := []
  containersAutoBuild : Bool := false
  containersBuildTimeout : Str := chars "30:00"
deriving DecidableEq, Repr

/-- The `Service` job-spec data of `src/services/base.py` (dataclass fields
of `Job` plus the `Service` additions). Resource and environment values are
modelled as already-rendered strings (Python interpolates them with
f-strings). -/
structure ServiceSpec where
  name : Str
  container_image : Str
  resources : List (Str × Str)
  environment : List (Str × Str)
  command : Option Str := none
  args : List Str := []
  ports : List Nat := []
  container : List (Str × Str) := []
deriving DecidableEq, Repr

/-- `Service._resolve_container_path`. -/
def resolveContainerPath (svc : ServiceSpec) (cfg : GlobalConfig) : Str :=
  match dictGet svc.container (chars "image_path") with
  | some p => p
  | none =>
    if cfg.containersBasePath ≠ [] ∧ isPrefixB (chars "/") svc.container_image = false then
      cfg.containersBasePath ++ chars "/" ++ svc.container_image
    else svc.container_image

/-- `Service._get_docker_source`: service container config first, then the
global `containers.docker_sources` map keyed by the service name. -/
def serviceDockerSource (svc : ServiceSpec) (cfg : GlobalConfig) : Option Str :=
  match dictGet svc.container (chars "docker_source") with
  | some s => some s
  | none => dictGet cfg.containersDockerSources svc.name

/-- `Service._generate_container_build_commands` (the overriding definition
at `services/base.py:452`). -/
def serviceBuildCommands (svc : ServiceSpec) (cfg : GlobalConfig) : List Str :=
  match serviceDockerSource svc cfg with
  | none => []
  | some docker_source =>
    let container_path := resolveContainerPath svc cfg
    let container_dir := joinWith (chars "/") (splitOnChar '/' container_path).dropLast
    (if container_dir ≠ [] then [chars "mkdir -p " ++ container_dir] else [])
    ++ [chars "# Container management",
        chars "if [ ! -f \"" ++ container_path ++ chars "\" ]; then",
        chars "    echo \"Container " ++ container_path ++ chars " not found, building from "
          ++ docker_source ++ chars "...\"",
        chars "    echo \"Starting container build at $(date)\"",
        chars "    apptainer build " ++ container_path ++ chars " " ++ docker_source,
        chars "    if [ $? -eq 0 ]; then",
        chars "        echo \"Container built successfully at $(date)\"",
        chars "    else",
        chars "        echo \"Container build failed at $(date)\"",
        chars "        exit 1",
        chars "    fi",
        chars "else",
        chars "    echo \"Container " ++ container_path ++ chars " already exists\"",
        chars "fi",
        []]

/-- `Service.get_container_command` (the overriding definition at
`services/base.py:412`). `--nv` is added when the job's own `gres` resource
starts with `gpu:`; one `--env` flag per environment entry; the parts are
joined with single spaces. -/
def serviceContainerCommand (svc : ServiceSpec) (cfg : GlobalConfig) : Str :=
  joinWith (chars " ")
    ([chars "apptainer exec"]
      ++ (if isPrefixB (chars "gpu:") (dictGetD svc.resources (chars "gres") []) then
            [chars "--nv"] else [])
      ++ svc.environment.map (fun p => chars "--env " ++ p.1 ++ chars "=" ++ p.2)
      ++ [resolveContainerPath svc cfg]
      ++ (match svc.command with
          | some c => c :: svc.args
          | none => [])
      ++ [chars "&"])

/-- `Service.get_health_check_commands`. -/
def healthCheckCommands (name : Str) : List Str :=
  [[],
   chars "# Keep the job alive and monitor " ++ name ++ chars " service",
   chars "sleep 30  # Allow service to start",
   [],
   chars "# Simple monitoring loop",
   chars "echo '" ++ name ++ chars " service started, monitoring...'",
   chars "while kill -0 $! 2>/dev/null; do",
   chars "    sleep 60",
   chars "done",
   [],
   chars "echo '" ++ name ++ chars " service finished'"]

/-- `Service.generate_script_commands`: empty setup hook, then the start
command, then the health-check/keep-alive block. -/
def serviceScriptCommands (svc : ServiceSpec) (cfg : GlobalConfig) : List Str :=
  [chars "# Start the " ++ svc.name ++ chars " service",
   serviceContainerCommand svc cfg]
  ++ healthCheckCommands svc.name

/-- The merged `final_slurm_config` lookup for the seven always-present keys:
`{**default_slurm_config, **self.resources}` where the default takes the
value from `config['slurm']` or the hard-wired fallback. -/
def finalCfg (svc : ServiceSpec) (cfg : GlobalConfig) (key : Str) (fallback : Str) : Str :=
  dictGetD svc.resources key (dictGetD cfg.slurm key fallback)

/-- An optional `#SBATCH` directive: emitted when `final_slurm_config.get(key)`
is truthy. Since the defaults dict has no `gres`/`mem`/`cpus_per_task` entry,
this is exactly a truthy lookup in the job's own `resources`. -/
def optDirective (resources : List (Str × Str)) (key flag : Str) : List Str :=
  match dictGet resources key with
  | some v => if v ≠ [] then [flag ++ v] else []
  | none => []

/-- The `#SBATCH` directive block of `Job.generate_slurm_script`, including
the `insert(-2, ...)` placement of the optional gres/mem/cpus-per-task
directives (they land between the `--nodes` and `--ntasks` lines). -/
def slurmDirectiveLines (svc : ServiceSpec) (cfg : GlobalConfig) (acct : Str)
    (job_id : Str) : List Str :=
  [chars "#!/bin/bash -l",
   chars "#SBATCH --job-name=" ++ (svc.name ++ (chars "_" ++ job_id)),
   chars "#SBATCH --time=" ++ finalCfg svc cfg (chars "time") (chars "00:15:00"),
   chars "#SBATCH --qos=" ++ finalCfg svc cfg (chars "qos") (chars "default"),
   chars "#SBATCH --partition=" ++ finalCfg svc cfg (chars "partition") (chars "cpu"),
   chars "#SBATCH --account=" ++ dictGetD svc.resources (chars "account") acct,
   chars "#SBATCH --nodes=" ++ finalCfg svc cfg (chars "nodes") (chars "1")]
  ++ optDirective svc.resources (chars "gres") (chars "#SBATCH --gres=")
  ++ optDirective svc.resources (chars "mem") (chars "#SBATCH --mem=")
  ++ optDirective svc.resources (chars "cpus_per_task") (chars "#SBATCH --cpus-per-task=")
  ++ [chars "#SBATCH --ntasks=" ++ finalCfg svc cfg (chars "ntasks") (chars "1"),
      chars "#SBATCH --ntasks-per-node="
        ++ finalCfg svc cfg (chars "ntasks_per_node") (chars "1")]

/-- The environment-variable block of `Job.generate_slurm_script`. -/
def envLines (environment : List (Str × Str)) : List Str :=
  if environment ≠ [] then
    chars "# Set environment variables"
      :: environment.map (fun p => chars "export " ++ p.1 ++ chars "=" ++ p.2)
      ++ [[]]
  else []

/-- The `TARGET_SERVICE_HOST` export block (emitted only for a truthy host). -/
def hostLines (targetHost : Option Str) : List Str :=
  match targetHost with
  | some h => if h = [] then [] else [chars "export TARGET_SERVICE_HOST=" ++ h, []]
  | none => []

/-- The full line list produced by `Job.generate_slurm_script` for a
`Service`, once the account check has passed. -/
def serviceScriptLines (svc : ServiceSpec) (cfg : GlobalConfig) (acct : Str)
    (job_id : Str) (targetHost : Option Str) : List Str :=
  slurmDirectiveLines svc cfg acct job_id
  ++ [[], chars "# Load required modules", chars "module add Apptainer", []]
  ++ envLines svc.environment
  ++ serviceBuildCommands svc cfg
  ++ hostLines targetHost
  ++ serviceScriptCommands svc cfg

/-- `Job.generate_slurm_script` (services/base.py:71): raises `ValueError`
when `config['slurm']` has no `account`, otherwise renders the script.
The result is the script's list of lines (the code joins them with `"\n"`). -/
def generate_slurm_script (svc : ServiceSpec) (cfg : GlobalConfig) (job_id : Str)
    (targetHost : Option Str) : Except Str (List Str) :=
  match dictGet cfg.slurm (chars "account") with
  | none => .error (chars "SLURM account must be specified in slurm configuration")
  | some acct => .ok (serviceScriptLines svc cfg acct job_id targetHost)

/-! ### `ScriptGenerator` (src/script_generator.py)

Used by `ClientsModule`; its `generate_service_script` is the alternative
service renderer. Its constructor builds `default_slurm_config` with a
hard-wired fallback account `'p200981'`. -/

/-- `ServiceConfig` of `src/base.py` as consumed by `ScriptGenerator`:
`resources` is a nested dict read as `resources.get('slurm', {})`,
`resources.get('gpu', 0)` and `resources.get('memory')` (the empty string
models an absent/falsy `memory`). -/
structure SGServiceConfig where
  name : Str
  container_image : Str
  resourcesSlurm : List (Str × Str) := []
  resourcesGpu : Nat := 0
  resourcesMemory : Str := []
  environment : List (Str × Str) := []
  command : Option Str := none
  args : List Str := []
deriving DecidableEq, Repr

/-- Decimal rendering of a `Nat` (Python f-string interpolation of an int). -/
def natToChars (n : Nat) : Str := (toString n).data

/-- Python `int(s)` on a digit string, as used by `_compare_time_strings`. -/
def strToNat (s : Str) : Nat :=
  s.foldl (fun n c => n * 10 + (c.toNat - '0'.toNat)) 0

/-- `ScriptGenerator._compare_time_strings`' underlying seconds conversion:
`MM:SS` or `HH:MM:SS`, anything else counts as 0. -/
def timeToSeconds (t : Str) : Nat :=
  match splitOnChar ':' t with
  | [a, b] => strToNat a * 60 + strToNat b
  | [a, b, c] => strToNat a * 3600 + strToNat b * 60 + strToNat c
  | _ => 0

/-- `ScriptGenerator.__init__`'s `default_slurm_config`: every key falls back
to a hard-wired default when absent from `config['slurm']` — including the
account, which silently defaults to `'p200981'`. -/
def sgDefaultSlurm (cfg : GlobalConfig) : List (Str × Str) :=
  [(chars "account", dictGetD cfg.slurm (chars "account") (chars "p200981")),
   (chars "partition", dictGetD cfg.slurm (chars "partition") (chars "gpu")),
   (chars "qos", dictGetD cfg.slurm (chars "qos") (chars "default")),
   (chars "time", dictGetD cfg.slurm (chars "time") (chars "01:00:00")),
   (chars "nodes", dictGetD cfg.slurm (chars "nodes") (chars "1")),
   (chars "ntasks", dictGetD cfg.slurm (chars "ntasks") (chars "1")),
   (chars "ntasks_per_node", dictGetD cfg.slurm (chars "ntasks_per_node") (chars "1"))]

/-- The merged `slurm_config` of `generate_service_script`:
`{**self.default_slurm_config, **resources.get('slurm', {})}`. -/
def sgFinal (cfg : GlobalConfig) (sc : SGServiceConfig) (key : Str) : Str :=
  (mergedGet (sgDefaultSlurm cfg) sc.resourcesSlurm key).getD []

/-- The `time` entry after the auto-build adjustment (use the build timeout
when auto-build is on and it exceeds the configured time). -/
def sgTime (cfg : GlobalConfig) (sc : SGServiceConfig) : Str :=
  let t := sgFinal cfg sc (chars "time")
  if cfg.containersAutoBuild
      ∧ timeToSeconds cfg.containersBuildTimeout > timeToSeconds t then
    cfg.containersBuildTimeout
  else t

/-- `ScriptGenerator._generate_container_build_commands`. -/
def sgBuildCommands (cfg : GlobalConfig) (sc : SGServiceConfig) : List Str :=
  if cfg.containersAutoBuild = false then []
  else
    let container_path :=
      if cfg.containersBasePath ≠ [] ∧ isPrefixB (chars "/") sc.container_image = false then
        cfg.containersBasePath ++ chars "/" ++ sc.container_image
      else sc.container_image
    match dictGet cfg.containersDockerSources sc.name with
    | none => []
    | some docker_source =>
      [chars "# Container management",
       chars "mkdir -p " ++ cfg.containersBasePath]
      ++ (if cfg.containersForceRebuild then
            [chars "echo \"Force rebuild enabled, building container from "
               ++ docker_source ++ chars "...\"",
             chars "echo \"Starting container build at $(date)\"",
             chars "apptainer build --force " ++ container_path ++ chars " " ++ docker_source]
          else
            [chars "if [ ! -f \"" ++ container_path ++ chars "\" ]; then",
             chars "    echo \"Container " ++ container_path ++ chars " not found, building from "
               ++ docker_source ++ chars "...\"",
             chars "    echo \"Starting container build at $(date)\"",
             chars "    apptainer build " ++ container_path ++ chars " " ++ docker_source])
      ++ [chars "if [ $? -eq 0 ]; then",
          chars "    echo \"Container built successfully at $(date)\"",
          chars "else",
          chars "    echo \"Container build failed at $(date)\"",
          chars "    exit 1",
          chars "fi"]
      ++ (if cfg.containersForceRebuild = false then
            [chars "else",
             chars "    echo \"Container " ++ container_path ++ chars " already exists\"",
             chars "fi"]
          else [])
      ++ [[]]

/-- `ScriptGenerator._build_container_command`. -/
def sgContainerCommand (cfg : GlobalConfig) (sc : SGServiceConfig) : Str :=
  joinWith (chars " ")
    ([chars "apptainer exec"]
      ++ (if 0 < sc.resourcesGpu then [chars "--nv"] else [])
      ++ sc.environment.map (fun p => chars "--env " ++ p.1 ++ chars "=" ++ p.2)
      ++ [(if cfg.containersBasePath ≠ []
              ∧ isPrefixB (chars "/") sc.container_image = false then
            cfg.containersBasePath ++ chars "/" ++ sc.container_image
          else sc.container_image)]
      ++ (match sc.command with
          | some c => c :: sc.args
          | none => [])
      ++ [chars "&"])

/-- `ScriptGenerator._generate_ollama_setup`. -/
def sgOllamaSetup : List Str :=
  [chars "# Ollama-specific setup",
   chars "export OLLAMA_TLS_SKIP_VERIFY=1",
   chars "export OLLAMA_HOST=0.0.0.0:11434",
   []]

/-- `ScriptGenerator.generate_service_script`: note the `insert(-2, ...)`
calls place the optional gres/mem directives between
`"# Load required modules"` and `"module add Apptainer"`, and that this
renderer never fails — a missing account was already replaced by the
`'p200981'` default in `sgDefaultSlurm`. -/
def generate_service_script (cfg : GlobalConfig) (sc : SGServiceConfig)
    (service_id : Str) : List Str :=
  [chars "#!/bin/bash -l",
   chars "#SBATCH --job-name=" ++ (sc.name ++ (chars "_" ++ service_id)),
   chars "#SBATCH --time=" ++ sgTime cfg sc,
   chars "#SBATCH --qos=" ++ sgFinal cfg sc (chars "qos"),
   chars "#SBATCH --partition=" ++ sgFinal cfg sc (chars "partition"),
   chars "#SBATCH --account=" ++ sgFinal cfg sc (chars "account"),
   chars "#SBATCH --nodes=" ++ sgFinal cfg sc (chars "nodes"),
   chars "#SBATCH --ntasks=" ++ sgFinal cfg sc (chars "ntasks"),
   chars "#SBATCH --ntasks-per-node=" ++ sgFinal cfg sc (chars "ntasks_per_node"),
   [],
   chars "# Load required modules"]
  ++ (if 0 < sc.resourcesGpu then
        [chars "#SBATCH --gres=gpu:" ++ natToChars sc.resourcesGpu] else [])
  ++ (if sc.resourcesMemory ≠ [] then
        [chars "#SBATCH --mem=" ++ sc.resourcesMemory] else [])
  ++ [chars "module add Apptainer", []]
  ++ envLines sc.environment
  ++ sgBuildCommands cfg sc
  ++ (if sc.name = chars "ollama" then sgOllamaSetup else [])
  ++ [chars "# Start the service", sgContainerCommand cfg sc]
  ++ [[],
      chars "# Keep the job alive and monitor service",
      chars "sleep 30  # Allow service to start",
      [],
      chars "# Simple health check loop",
      chars "echo 'Service started, monitoring...'",
      chars "while kill -0 $! 2>/dev/null; do",
      chars "    sleep 60",
      chars "done",
      [],
      chars "echo 'Service finished'"]

/-! ### `SSHClient` (src/ssh_client.py)

Remote execution is modelled by passing the observed results of the
individual remote operations as arguments: `uploadOk` for
`upload_file`, `chmodExit` for the `chmod +x` command, and
`(submitExit, submitStdout)` for the `sbatch` command. -/

/-- The `(exitCode, stdout, stderr)` triple returned by `execute_command`. -/
structure CmdResult where
  exitCode : Nat
  stdout : Str
  stderr : Str := []
deriving DecidableEq, Repr

/-- Observable outcome of `submit_slurm_job`: the returned job id and
whether the local temp script / uploaded remote script still exist when the
call returns. -/
structure SubmitOutcome where
  jobId : Option Str
  localTempExists : Bool
  remoteScriptExists : Bool
deriving DecidableEq, Repr

/-- The sbatch acknowledgement phrase searched for in each stdout line. -/
def submitPhrase : Str := chars "Submitted batch job"

/-- Job-id extraction from the sbatch stdout: first line containing the
phrase, last whitespace-separated token of that line
(`line.split()[-1]`). -/
def parseSbatchStdout (stdout : Str) : Option Str :=
  match (splitOnChar '\n' (pyStrip stdout)).find? (fun l => isInfixB submitPhrase l) with
  | some line => (wsTokens line).getLast?
  | none => none

/-- `SSHClient.submit_slurm_job` (ssh_client.py:162). The local temp file is
created first; on upload failure the function returns `None` without
deleting it; on chmod failure it returns `None` leaving both the local and
the uploaded remote copy; only once the submit step is reached are both
copies deleted (before the stdout is parsed). -/
def submit_slurm_job (uploadOk : Bool) (chmodExit : Nat) (submit : CmdResult) :
    SubmitOutcome :=
  if uploadOk = false then
    { jobId := none, localTempExists := true, remoteScriptExists := false }
  else if chmodExit ≠ 0 then
    { jobId := none, localTempExists := true, remoteScriptExists := true }
  else
    { jobId := if submit.exitCode = 0 then parseSbatchStdout submit.stdout else none,
      localTempExists := false, remoteScriptExists := false }

/-- The `squeue` half of `SSHClient.get_job_status`: on exit code 0 with
nonempty stripped stdout, split the whole stdout on commas; with at least 4
fields return the stripped-field dictionary, else fall through. -/
def squeueView (res : CmdResult) : Option (List (Str × Str)) :=
  if res.exitCode = 0 ∧ pyStrip res.stdout ≠ [] then
    let fields := splitOnChar ',' (pyStrip res.stdout)
    if 4 ≤ fields.length then
      some [(chars "job_id", pyStrip (fields.getD 0 [])),
            (chars "state", pyStrip (fields.getD 1 [])),
            (chars "time", pyStrip (fields.getD 2 [])),
            (chars "nodes", pyStrip (fields.getD 3 []))]
    else none
  else none

/-- The `sacct` half of `SSHClient.get_job_status`: on exit code 0 with
nonempty stripped stdout, the first line that starts with `jobId ++ "|"` and
splits into at least 4 pipe-separated fields yields the dictionary. -/
def sacctView (jobId : Str) (res : CmdResult) : Option (List (Str × Str)) :=
  if res.exitCode = 0 ∧ pyStrip res.stdout ≠ [] then
    match (splitOnChar '\n' (pyStrip res.stdout)).find?
        (fun line => isPrefixB (jobId ++ chars "|") line
          && decide (4 ≤ (splitOnChar '|' line).length)) with
    | some line =>
      let fields := splitOnChar '|' line
      some [(chars "job_id", fields.getD 0 []),
            (chars "state", fields.getD 1 []),
            (chars "exit_code", fields.getD 2 []),
            (chars "nodes", fields.getD 3 [])]
    | none => none
  else none

/-- `SSHClient.get_job_status` (ssh_client.py:209): live-queue view first,
historical-accounting view as fallback, `None` when both are absent. -/
def get_job_status (jobId : Str) (squeueRes sacctRes : CmdResult) :
    Option (List (Str × Str)) :=
  match squeueView squeueRes with
  | some d => some d
  | none => sacctView jobId sacctRes

/-! ### Lifecycle managers (src/servers.py, src/clients.py) -/

/-- The `state_mapping` dict of `check_service_status` /
`check_client_status`: unmapped states leave the tracked status untouched. -/
def state_mapping (s : Str) : Option ServiceStatus :=
  if s = chars "PENDING" then some .pending
  else if s = chars "RUNNING" then some .running
  else if s = chars "COMPLETED" then some .completed
  else if s = chars "FAILED" then some .failed
  else if s = chars "CANCELLED" then some .cancelled
  else if s = chars "TIMEOUT" then some .failed
  else none

/-- Whether a status is terminal (`COMPLETED`, `FAILED`, `CANCELLED`). -/
def isTerminal (s : ServiceStatus) : Bool :=
  s = .completed ∨ s = .failed ∨ s = .cancelled

/-- The in-place `JobInfo` update performed when `get_job_status` returned a
dictionary: map the reported state (default `'UNKNOWN'`), and record
started/completed timestamps the first time running/terminal is observed. -/
def applySlurmStatus (info : JobInfo) (d : List (Str × Str)) (now : Nat) : JobInfo :=
  let st := dictGetD d (chars "state") (chars "UNKNOWN")
  match state_mapping st with
  | none => info
  | some newSt =>
    if newSt = .running ∧ info.startedAt = none then
      { info with status := newSt, startedAt := some now }
    else if isTerminal newSt ∧ info.completedAt = none then
      { info with status := newSt, completedAt := some now }
    else { info with status := newSt }

/-- The in-place `JobInfo` update performed when the job was found in
neither SLURM view: a previously pending/running job is assumed to have
completed very quickly. -/
def applyVanished (info : JobInfo) (now : Nat) : JobInfo :=
  if info.status = .pending ∨ info.status = .running then
    { info with status := .completed,
                completedAt := if info.completedAt = none then some now
                               else info.completedAt }
  else info

/-- The status dictionary returned by `check_service_status` /
`check_client_status` (the `service_id`/`client_id` key is modelled as
`entityId`, the enum `.value` string as the enum itself). -/
structure StatusDict where
  entityId : Str
  status : ServiceStatus
  jobId : Str
  slurmState : Option Str := none
  nodes : Option Str := none
  submittedAt : Nat
  startedAt : Option Nat := none
  completedAt : Option Nat := none
deriving DecidableEq, Repr

/-- `ServersModule.check_service_status` (servers.py:364). Returns the error
dictionary (modelled as `.error msg`) for an untracked id; otherwise
refreshes the tracked `JobInfo` from the supplied SLURM query results and
returns the status dictionary together with the updated table. -/
def check_service_status (table : Table) (sid : Str) (sshConnected : Bool)
    (squeueRes sacctRes : CmdResult) (now : Nat) :
    Except Str StatusDict × Table :=
  match lookupTbl table sid with
  | none => (.error (chars "Service " ++ sid ++ chars " not found"), table)
  | some info =>
    if sshConnected ∧ info.jobId ≠ [] then
      match get_job_status info.jobId squeueRes sacctRes with
      | some d =>
        let info' := applySlurmStatus info d now
        (.ok { entityId := sid, status := info'.status, jobId := info'.jobId,
               slurmState := some (dictGetD d (chars "state") (chars "UNKNOWN")),
               nodes := dictGet d (chars "nodes"),
               submittedAt := info'.submittedAt, startedAt := info'.startedAt,
               completedAt := info'.completedAt },
         updateTbl table sid info')
      | none =>
        let info' := applyVanished info now
        (.ok { entityId := sid, status := info'.status, jobId := info'.jobId,
               submittedAt := info'.submittedAt, startedAt := info'.startedAt,
               completedAt := info'.completedAt },
         updateTbl table sid info')
    else
      (.ok { entityId := sid, status := info.status, jobId := info.jobId,
             submittedAt := info.submittedAt, startedAt := info.startedAt,
             completedAt := info.completedAt },
       table)

/-- `ClientsModule.check_client_status` (clients.py:187): identical logic,
with the client wording in the error message. -/
def check_client_status (table : Table) (cid : Str) (sshConnected : Bool)
    (squeueRes sacctRes : CmdResult) (now : Nat) :
    Except Str StatusDict × Table :=
  match lookupTbl table cid with
  | none => (.error (chars "Client " ++ cid ++ chars " not found"), table)
  | some info =>
    if sshConnected ∧ info.jobId ≠ [] then
      match get_job_status info.jobId squeueRes sacctRes with
      | some d =>
        let info' := applySlurmStatus info d now
        (.ok { entityId := cid, status := info'.status, jobId := info'.jobId,
               slurmState := some (dictGetD d (chars "state") (chars "UNKNOWN")),
               nodes := dictGet d (chars "nodes"),
               submittedAt := info'.submittedAt, startedAt := info'.startedAt,
               completedAt := info'.completedAt },
         updateTbl table cid info')
      | none =>
        let info' := applyVanished info now
        (.ok { entityId := cid, status := info'.status, jobId := info'.jobId,
               submittedAt := info'.submittedAt, startedAt := info'.startedAt,
               completedAt := info'.completedAt },
         updateTbl table cid info')
    else
      (.ok { entityId := cid, status := info.status, jobId := info.jobId,
             submittedAt := info.submittedAt, startedAt := info.startedAt,
             completedAt := info.completedAt },
       table)

/-- `ServersModule.start_service` (servers.py:92), restricted to the job
orchestration core: render the script, submit it (`submitRes` is the job id
returned by `submit_slurm_job`), and only on a truthy job id insert the
`JobInfo` with status `PENDING`. The result pairs the returned/raised value
with the tracking table after the call. -/
def start_service (table : Table) (svc : ServiceSpec) (cfg : GlobalConfig)
    (service_id : Str) (sshConnected : Bool) (submitRes : Option Str)
    (now : Nat) : Except Str Str × Table :=
  match generate_slurm_script svc cfg service_id none with
  | .error e => (.error e, table)
  | .ok _ =>
    if sshConnected then
      match submitRes with
      | some jid =>
        (.ok service_id,
         insertTbl table service_id
           { jobId := jid, serviceId := service_id, status := .pending,
             submittedAt := now })
      | none => (.error (chars "Failed to submit SLURM job"), table)
    else
      (.ok service_id, table)

/-- `ServersModule._stop_service_by_service_id` (servers.py:254): only
called with a tracked id; cancel over SSH when connected and a job id
exists, mark `CANCELLED` on success. (The untracked case cannot occur in
the caller and is modelled as a failed no-op.) -/
def stop_service_by_service_id (table : Table) (sid : Str)
    (sshConnected cancelOk : Bool) (now : Nat) : Bool × Table :=
  match lookupTbl table sid with
  | none => (false, table)
  | some info =>
    if sshConnected ∧ info.jobId ≠ [] then
      if cancelOk then
        (true, updateTbl table sid
          { info with status := .cancelled, completedAt := some now })
      else (false, table)
    else
      (true, updateTbl table sid
        { info with status := .cancelled, completedAt := some now })

/-- `ClientsModule.stop_client` (clients.py:156): an untracked reference is
a reported failure (no scheduler-id or name-fragment fallback exists for
clients); a tracked one is cancelled like a service. -/
def stop_client (table : Table) (cid : Str) (sshConnected cancelOk : Bool)
    (now : Nat) : Bool × Table :=
  match lookupTbl table cid with
  | none => (false, table)
  | some info =>
    if sshConnected ∧ info.jobId ≠ [] then
      if cancelOk then
        (true, updateTbl table cid
          { info with status := .cancelled, completedAt := some now })
      else (false, table)
    else
      (true, updateTbl table cid
        { info with status := .cancelled, completedAt := some now })

/-- `cleanup_completed_services` / `cleanup_completed_clients`: drop every
terminal entry from the tracking table. -/
def cleanup_completed (table : Table) : Table :=
  table.filter (fun p => !(isTerminal p.2.status))

/-! ### `stop_service` reference resolution (servers.py:173, 280) -/

/-- Which path `ServersModule.stop_service` resolves a reference through. -/
inductive StopPath where
  /-- The reference is a tracked internal id (`service_id in _running_instances`). -/
  | internalId
  /-- The reference is all digits: it is used directly as a raw scheduler
  job id (tracked entries are scanned only to update bookkeeping). -/
  | rawJobId
  /-- A tracked entry matched the substring/prefix scan; carries its key. -/
  | trackedMatch (sid : Str)
  /-- Fall through to the live `squeue | grep` query. -/
  | liveQuery
deriving DecidableEq, Repr

/-- The resolution logic of `ServersModule.stop_service` /
`_stop_service_by_slurm_reference`: tracked-id first; a digit reference is
always treated as a raw scheduler job id (never falling through further);
otherwise the first tracked entry with `reference in job_name
or reference in sid or sid.startswith(reference)` — where `job_name` is
`job_info.service_id`, i.e. the *internal* id again — and finally the live
queue query. -/
def stop_resolution (table : Table) (ref : Str) : StopPath :=
  if (lookupTbl table ref).isSome then .internalId
  else if pyIsDigit ref then .rawJobId
  else
    match table.find? (fun p =>
        isInfixB ref p.2.serviceId || isInfixB ref p.1 || isPrefixB ref p.1) with
    | some p => .trackedMatch p.1
    | none => .liveQuery

/-- Modelled from the spec (claim C6's wording), for refinement comparison
with `stop_resolution`: exact internal-id match, then exact scheduler-id
match against tracked entries, then substring/prefix match against the
tracked jobs' *names* (supplied as a map from internal id to job name,
since the tracking table itself stores no names), then the live query. -/
def spec_stop_resolution (table : Table) (names : List (Str × Str)) (ref : Str) :
    StopPath :=
  if (lookupTbl table ref).isSome then .internalId
  else if (table.find? (fun p => decide (p.2.jobId = ref))).isSome then .rawJobId
  else
    match table.find? (fun p =>
        match dictGet names p.1 with
        | some nm => isInfixB ref nm || isPrefixB ref nm
        | none => false) with
    | some p => .trackedMatch p.1
    | none => .liveQuery

/-! ### `JobFactory` (services/base.py:831) -/

/-- The part of a recipe's `client` block that `JobFactory.create_client`
reads: the client's own name and `target_service.name` (either may be
absent, defaulting to `'unknown'`). -/
structure ClientRecipe where
  clientName : Option Str := none
  targetServiceName : Option Str := none
deriving DecidableEq, Repr

/-- `JobFactory.create_service`: look the service's own name up in the
service registry (modelled as a name-to-implementation-tag map); unknown
names raise `ValueError` with a message naming them. -/
def create_service (registry : List (Str × Str)) (serviceName : Option Str) :
    Except Str Str :=
  let name := serviceName.getD (chars "unknown")
  match dictGet registry name with
  | some cls => .ok cls
  | none => .error (chars "Unknown service type: " ++ name)

/-- `JobFactory.create_client`: the registry key is
`recipe['client']['target_service']['name']`, not the client's own name. -/
def create_client (registry : List (Str × Str)) (r : ClientRecipe) :
    Except Str Str :=
  let name := r.targetServiceName.getD (chars "unknown")
  match dictGet registry name with
  | some cls => .ok cls
  | none => .error (chars "Unknown target service for client: " ++ name)

/-- `ClientsModule.start_client` (clients.py:68), tracking part. Script
rendering goes through `ScriptGenerator.generate_client_script`, which is a
total function (it cannot raise the missing-account error), so only the
submit outcome decides whether anything is tracked. -/
def start_client (table : Table) (client_id : Str) (sshConnected : Bool)
    (submitRes : Option Str) (now : Nat) : Except Str Str × Table :=
  if sshConnected then
    match submitRes with
    | some jid =>
      (.ok client_id,
       insertTbl table client_id
         { jobId := jid, serviceId := client_id, status := .pending,
           submittedAt := now })
    | none => (.error (chars "Failed to submit SLURM job"), table)
  else
    (.ok client_id, table)

/-! ### Formalization devices for the individual claims -/

/-- A script line is a job-name directive iff it starts with
`#SBATCH --job-name=`. -/
def isJobNameLine (l : Str) : Bool := isPrefixB (chars "#SBATCH --job-name=") l

/-- The transition relation asserted by claim C5:
Pending→Running→{Completed, Failed, Cancelled} or
Pending→{Cancelled, Failed} (staying put is not a transition). -/
def allowedTransitionC5 (a b : ServiceStatus) : Bool :=
  decide (a = b)
  || (decide (a = .pending)
      && (decide (b = .running) || decide (b = .cancelled) || decide (b = .failed)))
  || (decide (a = .running)
      && (decide (b = .completed) || decide (b = .failed) || decide (b = .cancelled)))

/-- The status actually produced by a status refresh, as a function of the
previous status and the scheduler query results (the amended transition
law for claim C5). -/
def refreshStatusSpec (conn : Bool) (info : JobInfo) (sq sa : CmdResult) :
    ServiceStatus :=
  if conn = true ∧ info.jobId ≠ [] then
    match get_job_status info.jobId sq sa with
    | some d =>
      (state_mapping (dictGetD d (chars "state") (chars "UNKNOWN"))).getD info.status
    | none =>
      if info.status = .pending ∨ info.status = .running then .completed
      else info.status
  else info.status

/-- The amended resolution order for claim C6: internal id, then digit
references taken as raw scheduler job ids, then substring/prefix match
against tracked *internal ids*, then the live queue query. -/
def amended_stop_resolution (table : Table) (ref : Str) : StopPath :=
  if (lookupTbl table ref).isSome then .internalId
  else if pyIsDigit ref then .rawJobId
  else
    match table.find? (fun p => isInfixB ref p.1 || isPrefixB ref p.1) with
    | some p => .trackedMatch p.1
    | none => .liveQuery

/-- C1 counterexample recipe: a service whose `resources` carry a key the
renderer does not recognize. -/
def c1Svc : ServiceSpec :=
  { name := chars "ollama", container_image := chars "ollama.sif",
    resources := [(chars "foo", chars "x")], environment := [] }

/-- C1 counterexample global configuration (account present, no container
build source). -/
def c1Cfg : GlobalConfig := { slurm := [(chars "account", chars "p1")] }

/-- The rendered script of the C1 counterexample. -/
def c1Lines : List Str :=
  serviceScriptLines c1Svc c1Cfg (chars "p1") (chars "abc") none

/-- C5 counterexample tracking entry: a job already tracked as Completed. -/
def c5Info : JobInfo :=
  { jobId := chars "42", serviceId := chars "s1", status := .completed,
    submittedAt := 5, completedAt := some 9 }

/-- C6 counterexample tracking entry: internal id `abc`, scheduler id `77`;
the corresponding SLURM job name is `ollama_abc`. -/
def c6Info : JobInfo :=
  { jobId := chars "77", serviceId := chars "abc", status := .running,
    submittedAt := 0 }

/-- C6 counterexample tracking table. -/
def c6Table : Table := [(chars "abc", c6Info)]

/-- C6 counterexample job-name map (internal id to SLURM job name, which
the code's tracking table itself does not store). -/
def c6Names : List (Str × Str) := [(chars "abc", chars "ollama_abc")]

/-- C1 witness recipe: job-specific time/gres/mem resources overriding a
global default time. -/
def w1Svc : ServiceSpec :=
  { name := chars "ollama", container_image := chars "ollama.sif",
    resources := [(chars "time", chars "02:00:00"), (chars "gres", chars "gpu:2"),
                  (chars "mem", chars "16G")],
    environment := [(chars "MODEL", chars "llama2")] }

/-- C1 witness global configuration (its own `time` default is overridden). -/
def w1Cfg : GlobalConfig :=
  { slurm := [(chars "account", chars "p1"), (chars "time", chars "00:30:00")] }

/-- The rendered script of the C1 witness. -/
def w1Lines : List Str :=
  serviceScriptLines w1Svc w1Cfg (chars "p1") (chars "j7") none

/-- C8 counterexample configuration: no `slurm.account` anywhere. -/
def c8Cfg : GlobalConfig := { slurm := [] }

/-- C8 counterexample service config for `ScriptGenerator`. -/
def c8Svc : SGServiceConfig :=
  { name := chars "db", container_image := chars "db.sif" }

/-! ## Helper lemmas -/

theorem not_prefix_append_of_incomparable {p lit : Str} (h1 : ¬ p <+: lit)
    (h2 : ¬ lit <+: p) (v : Str) : ¬ p <+: lit ++ v := by
  intro h
  rcases List.prefix_or_prefix_of_prefix h (List.prefix_append lit v) with h' | h'
  · exact h1 h'
  · exact h2 h'

theorem isJobNameLine_lit_append (lit v : Str)
    (h1 : ¬ chars "#SBATCH --job-name=" <+: lit)
    (h2 : ¬ lit <+: chars "#SBATCH --job-name=") :
    isJobNameLine (lit ++ v) = false := by
  have h := not_prefix_append_of_incomparable h1 h2 v
  simp [isJobNameLine, isPrefixB, h]

theorem joinWith_cons_exists (sep a : Str) (l : List Str) :
    ∃ t, joinWith sep (a :: l) = a ++ t := by
  cases l with
  | nil => exact ⟨[], by simp [joinWith]⟩
  | cons b bs => exact ⟨sep ++ joinWith sep (b :: bs), by simp [joinWith]⟩

theorem find?_congr_pred {α : Type} (p q : α → Bool) (l : List α)
    (h : ∀ a ∈ l, p a = q a) : l.find? p = l.find? q := by
  induction l with
  | nil => rfl
  | cons a rest ih =>
    have ha := h a (List.mem_cons_self a rest)
    by_cases hp : p a = true
    · rw [List.find?_cons_of_pos _ hp, List.find?_cons_of_pos _ (ha ▸ hp)]
    · rw [List.find?_cons_of_neg _ hp,
        List.find?_cons_of_neg _ (by rw [← ha]; exact hp)]
      exact ih (fun a ha' => h a (List.mem_cons_of_mem _ ha'))

/-! ## Claim C10 -/

/-- C10: querying the status of an internal id that is not in the tracking
table returns the error dictionary whose message names the id, raises no
exception, and leaves the table unchanged — in both the servers and the
clients manager. -/
theorem c10_untracked_status_query (table : Table) (sid : Str) (conn : Bool)
    (sq sa : CmdResult) (now : Nat) (h : lookupTbl table sid = none) :
    check_service_status table sid conn sq sa now
      = (.error (chars "Service " ++ sid ++ chars " not found"), table)
    ∧ check_client_status table sid conn sq sa now
      = (.error (chars "Client " ++ sid ++ chars " not found"), table)
    ∧ sid <:+: chars "Service " ++ sid ++ chars " not found" := by
  refine ⟨?_, ?_, ?_⟩
  · simp [check_service_status, h]
  · simp [check_client_status, h]
  · exact ⟨chars "Service ", chars " not found", by simp⟩

/-- Witness for C10 at a concrete empty table. -/
theorem c10_untracked_status_query_witness :
    check_service_status [] (chars "zz") true ⟨0, [], []⟩ ⟨0, [], []⟩ 0
      = (.error (chars "Service " ++ chars "zz" ++ chars " not found"), [])
    ∧ check_client_status [] (chars "zz") true ⟨0, [], []⟩ ⟨0, [], []⟩ 0
      = (.error (chars "Client " ++ chars "zz" ++ chars " not found"), []) := by
  have h := c10_untracked_status_query [] (chars "zz") true ⟨0, [], []⟩ ⟨0, [], []⟩ 0 rfl
  exact ⟨h.1, h.2.1⟩

/-! ## Claim C9 -/

/-- C9: `create_client` selects the implementation by
`recipe.client.target_service.name` (the client's own name is irrelevant),
and an unregistered target name yields a `ValueError` whose message names
the missing target; `create_service` behaves analogously. -/
theorem c9_factory_lookup (registry : List (Str × Str)) (r : ClientRecipe)
    (sname : Option Str) :
    (∀ tname, r.targetServiceName = some tname → dictGet registry tname = none →
      create_client registry r
        = .error (chars "Unknown target service for client: " ++ tname)
      ∧ tname <:+: chars "Unknown target service for client: " ++ tname)
    ∧ (∀ n, create_client registry { r with clientName := n }
        = create_client registry r)
    ∧ (∀ nm, sname = some nm → dictGet registry nm = none →
      create_service registry sname = .error (chars "Unknown service type: " ++ nm)) := by
  refine ⟨?_, ?_, ?_⟩
  · intro tname ht hn
    refine ⟨by simp [create_client, ht, hn], ?_⟩
    exact ⟨chars "Unknown target service for client: ", [], by simp⟩
  · intro n; simp [create_client]
  · intro nm hs hn; simp [create_service, hs, hn]

/-- Witness for C9: a registry knowing only `ollama`; a client named
`bench` targeting unregistered `redis`, and a `pg` service. -/
theorem c9_factory_lookup_witness :
    create_client [(chars "ollama", chars "C")]
        { clientName := some (chars "bench"), targetServiceName := some (chars "redis") }
      = .error (chars "Unknown target service for client: " ++ chars "redis")
    ∧ create_service [(chars "ollama", chars "C")] (some (chars "pg"))
      = .error (chars "Unknown service type: " ++ chars "pg") := by
  have h := c9_factory_lookup [(chars "ollama", chars "C")]
    { clientName := some (chars "bench"), targetServiceName := some (chars "redis") }
    (some (chars "pg"))
  exact ⟨(h.1 (chars "redis") rfl (by decide)).1, h.2.2 (chars "pg") rfl (by decide)⟩

/-! ## Claim C7 -/

/-- C7: when submission yields no scheduler job id, `start_service` /
`start_client` raise an error and the tracking table is unchanged — no
`JobInfo` is inserted for a job that never got a scheduler id. -/
theorem c7_submission_failure_not_tracked (table : Table) (svc : ServiceSpec)
    (cfg : GlobalConfig) (sid : Str) (now : Nat) :
    (∃ e, start_service table svc cfg sid true none now = (.error e, table))
    ∧ start_client table sid true none now
      = (.error (chars "Failed to submit SLURM job"), table) := by
  constructor
  · unfold start_service
    cases h : generate_slurm_script svc cfg sid none with
    | error e => exact ⟨e, by simp⟩
    | ok l => exact ⟨chars "Failed to submit SLURM job", by simp⟩
  · simp [start_client]

/-! ## Claim C8 -/

/-- C8 counterexample: with no `slurm.account` configured anywhere,
`ScriptGenerator.generate_service_script` does not fail — it silently
renders `#SBATCH --account=p200981` from the constructor's hard-wired
fallback. -/
theorem c8_counterexample :
    dictGet c8Cfg.slurm (chars "account") = none
    ∧ chars "#SBATCH --account=p200981"
        ∈ generate_service_script c8Cfg c8Svc (chars "svc1") := by
  exact ⟨rfl, by decide⟩

/-- C8 amended: `Job.generate_slurm_script` (services/base.py) does fail
fast with the `ValueError` when the account is absent, but `ScriptGenerator`
(script_generator.py) instead substitutes the default account `p200981`
into its default SLURM configuration. -/
theorem c8_missing_account (svc : ServiceSpec) (cfg : GlobalConfig)
    (job_id : Str) (th : Option Str)
    (h : dictGet cfg.slurm (chars "account") = none) :
    generate_slurm_script svc cfg job_id th
      = .error (chars "SLURM account must be specified in slurm configuration")
    ∧ dictGet (sgDefaultSlurm cfg) (chars "account") = some (chars "p200981") := by
  constructor
  · simp [generate_slurm_script, h]
  · simp [sgDefaultSlurm, dictGet, dictGetD, h]

/-- Witness for C8 at a concrete account-less configuration. -/
theorem c8_missing_account_witness :
    generate_slurm_script
        { name := chars "x", container_image := chars "x.sif",
          resources := [], environment := [] } c8Cfg (chars "j1") none
      = .error (chars "SLURM account must be specified in slurm configuration")
    ∧ dictGet (sgDefaultSlurm c8Cfg) (chars "account") = some (chars "p200981") :=
  c8_missing_account _ c8Cfg (chars "j1") none rfl

/-! ## Claim C4 -/

/-- C4: a job id absent from both the live-queue view and the
historical-accounting view makes `get_job_status` return `None`, and the
caller-level refresh then advances a previously Pending/Running tracked
status to Completed with a completion timestamp (servers and clients). -/
theorem c4_vanished_job_completes (table : Table) (sid : Str) (info : JobInfo)
    (sq sa : CmdResult) (now : Nat)
    (htrack : lookupTbl table sid = some info)
    (hjid : info.jobId ≠ [])
    (hsq : squeueView sq = none)
    (hsa : sacctView info.jobId sa = none)
    (hst : info.status = .pending ∨ info.status = .running) :
    get_job_status info.jobId sq sa = none
    ∧ (∃ info',
        lookupTbl (check_service_status table sid true sq sa now).2 sid = some info'
        ∧ info'.status = .completed ∧ info'.completedAt.isSome = true)
    ∧ (∃ info',
        lookupTbl (check_client_status table sid true sq sa now).2 sid = some info'
        ∧ info'.status = .completed ∧ info'.completedAt.isSome = true) := by
  have hget : get_job_status info.jobId sq sa = none := by
    simp [get_job_status, hsq, hsa]
  have hstatus : (applyVanished info now).status = .completed := by
    simp only [applyVanished, if_pos hst]
  have hdone : (applyVanished info now).completedAt.isSome = true := by
    simp only [applyVanished, if_pos hst]
    cases h : info.completedAt <;> simp [h]
  refine ⟨hget, ⟨applyVanished info now, ?_, hstatus, hdone⟩,
    ⟨applyVanished info now, ?_, hstatus, hdone⟩⟩
  · have h2 : (check_service_status table sid true sq sa now).2
        = updateTbl table sid (applyVanished info now) := by
      simp [check_service_status, htrack, hjid, hget]
    rw [h2]
    exact lookupTbl_updateTbl_self table sid _ (by simp [htrack])
  · have h2 : (check_client_status table sid true sq sa now).2
        = updateTbl table sid (applyVanished info now) := by
      simp [check_client_status, htrack, hjid, hget]
    rw [h2]
    exact lookupTbl_updateTbl_self table sid _ (by simp [htrack])

/-- Witness for C4: a tracked Pending job whose id both SLURM views fail to
report (nonzero exit codes). -/
theorem c4_vanished_job_completes_witness :
    get_job_status (chars "42") ⟨1, [], []⟩ ⟨1, [], []⟩ = none
    ∧ (∃ info',
        lookupTbl (check_service_status
          [(chars "s",
            { jobId := chars "42"
              serviceId := chars "s"
              status := .pending
              submittedAt := 0 })]
          (chars "s") true ⟨1, [], []⟩ ⟨1, [], []⟩ 7).2 (chars "s") = some info'
        ∧ info'.status = .completed ∧ info'.completedAt.isSome = true)
    ∧ (∃ info',
        lookupTbl (check_client_status
          [(chars "s",
            { jobId := chars "42"
              serviceId := chars "s"
              status := .pending
              submittedAt := 0 })]
          (chars "s") true ⟨1, [], []⟩ ⟨1, [], []⟩ 7).2 (chars "s") = some info'
        ∧ info'.status = .completed ∧ info'.completedAt.isSome = true) := by
  exact c4_vanished_job_completes
    [(chars "s",
      { jobId := chars "42"
        serviceId := chars "s"
        status := .pending
        submittedAt := 0 })]
    (chars "s")
    { jobId := chars "42"
      serviceId := chars "s"
      status := .pending
      submittedAt := 0 }
    ⟨1, [], []⟩ ⟨1, [], []⟩ 7 rfl (by decide) rfl rfl (Or.inl rfl)

/-! ## Claim C5 -/

theorem applySlurmStatus_status (info : JobInfo) (d : List (Str × Str)) (now : Nat) :
    (applySlurmStatus info d now).status
      = (state_mapping (dictGetD d (chars "state") (chars "UNKNOWN"))).getD info.status := by
  simp only [applySlurmStatus]
  cases h : state_mapping (dictGetD d (chars "state") (chars "UNKNOWN")) with
  | none => simp
  | some s => simp only [Option.getD_some]; split_ifs <;> simp

theorem applyVanished_status (info : JobInfo) (now : Nat) :
    (applyVanished info now).status
      = if info.status = .pending ∨ info.status = .running then .completed
        else info.status := by
  unfold applyVanished; split_ifs <;> simp

/-- C5 counterexample: stopping a job that the table already records as
Completed (with `scancel` reporting success) moves it to Cancelled — a
transition out of a terminal state, which the claim rules out. -/
theorem c5_counterexample :
    (stop_service_by_service_id [(chars "s1", c5Info)] (chars "s1") true true 10).1 = true
    ∧ (lookupTbl
        (stop_service_by_service_id [(chars "s1", c5Info)] (chars "s1") true true 10).2
        (chars "s1")).map JobInfo.status = some .cancelled
    ∧ c5Info.status = .completed
    ∧ allowedTransitionC5 .completed .cancelled = false := by decide

/-- C5 amended: the status written by a refresh is exactly the scheduler's
reported state pushed through the fixed mapping (absent report: Completed
for Pending/Running, unchanged otherwise) with no regression guard, stop
marks any tracked entry Cancelled whenever cancellation succeeds, and
cleanup only removes terminal entries. -/
theorem c5_transition_characterization (table : Table) (sid : Str)
    (info : JobInfo) (conn cancelOk : Bool) (sq sa : CmdResult) (now : Nat)
    (htrack : lookupTbl table sid = some info) :
    (lookupTbl (check_service_status table sid conn sq sa now).2 sid).map
        JobInfo.status = some (refreshStatusSpec conn info sq sa)
    ∧ (conn = true → info.jobId ≠ [] → cancelOk = true →
        (lookupTbl (stop_service_by_service_id table sid conn cancelOk now).2 sid).map
          JobInfo.status = some .cancelled)
    ∧ (∀ p ∈ cleanup_completed table, isTerminal p.2.status = false) := by
  have hsome : (lookupTbl table sid).isSome := by simp [htrack]
  refine ⟨?_, ?_, ?_⟩
  · by_cases hc : conn = true ∧ info.jobId ≠ []
    · cases hget : get_job_status info.jobId sq sa with
      | some d =>
        have h2 : (check_service_status table sid conn sq sa now).2
            = updateTbl table sid (applySlurmStatus info d now) := by
          simp [check_service_status, htrack, hc.1, hc.2, hget]
        rw [h2, lookupTbl_updateTbl_self table sid _ hsome]
        simp [refreshStatusSpec, hc.1, hc.2, hget, applySlurmStatus_status]
      | none =>
        have h2 : (check_service_status table sid conn sq sa now).2
            = updateTbl table sid (applyVanished info now) := by
          simp [check_service_status, htrack, hc.1, hc.2, hget]
        rw [h2, lookupTbl_updateTbl_self table sid _ hsome]
        simp [refreshStatusSpec, hc.1, hc.2, hget, applyVanished_status]
    · have h2 : (check_service_status table sid conn sq sa now).2 = table := by
        simp [check_service_status, htrack, hc]
      rw [h2, htrack]
      simp [refreshStatusSpec, hc]
  · intro h1 h2 h3
    have h4 : (stop_service_by_service_id table sid conn cancelOk now).2
        = updateTbl table sid
            { info with status := .cancelled, completedAt := some now } := by
      simp [stop_service_by_service_id, htrack, h1, h2, h3]
    rw [h4, lookupTbl_updateTbl_self table sid _ hsome]
    rfl
  · intro p hp
    have := (List.mem_filter.mp hp).2
    simpa using this

/-- Witness for C5's amended theorem at a concrete one-entry table. -/
theorem c5_transition_characterization_witness :
    (lookupTbl (check_service_status [(chars "s1", c5Info)] (chars "s1") true
        ⟨1, [], []⟩ ⟨1, [], []⟩ 3).2 (chars "s1")).map JobInfo.status
      = some (refreshStatusSpec true c5Info ⟨1, [], []⟩ ⟨1, [], []⟩)
    ∧ (lookupTbl (stop_service_by_service_id [(chars "s1", c5Info)] (chars "s1")
        true true 3).2 (chars "s1")).map JobInfo.status = some .cancelled := by
  have h := c5_transition_characterization [(chars "s1", c5Info)] (chars "s1")
    c5Info true true ⟨1, [], []⟩ ⟨1, [], []⟩ 3 rfl
  exact ⟨h.1, h.2.1 rfl (by decide) rfl⟩

/-! ## Claim C6 -/

/-- C6 counterexample: the tracked job has internal id `abc`, SLURM job
name `ollama_abc`; per the claim, the reference `ollama` should resolve by
substring match against the tracked *name* before any live query; the code
instead finds no tracked match (it compares against internal ids only) and
falls through to the live queue query. -/
theorem c6_counterexample :
    stop_resolution c6Table (chars "ollama") = .liveQuery
    ∧ spec_stop_resolution c6Table c6Names (chars "ollama")
      = .trackedMatch (chars "abc")
    ∧ StopPath.liveQuery ≠ StopPath.trackedMatch (chars "abc") := by decide

/-- C6 amended: a reference equal to a tracked internal id always takes the
internal-id path; on tables whose entries record their own key as
`service_id` (as `start_service` maintains) the resolution is: internal id,
then digit references treated as raw scheduler job ids, then
substring/prefix matching against tracked *internal ids*, then the live
queue query; and `ClientsModule.stop_client` accepts only a tracked
internal id, failing on anything untracked. -/
theorem c6_resolution_order (table : Table) (ref : Str) :
    ((lookupTbl table ref).isSome = true → stop_resolution table ref = .internalId)
    ∧ ((∀ p ∈ table, p.2.serviceId = p.1) →
        stop_resolution table ref = amended_stop_resolution table ref)
    ∧ (∀ cid conn ok now, lookupTbl table cid = none →
        stop_client table cid conn ok now = (false, table)) := by
  refine ⟨?_, ?_, ?_⟩
  · intro h; simp [stop_resolution, h]
  · intro h
    unfold stop_resolution amended_stop_resolution
    have hfind : table.find?
          (fun p => isInfixB ref p.2.serviceId || isInfixB ref p.1 || isPrefixB ref p.1)
        = table.find? (fun p => isInfixB ref p.1 || isPrefixB ref p.1) := by
      apply find?_congr_pred
      intro a ha
      rw [h a ha]
      cases isInfixB ref a.1 <;> cases isPrefixB ref a.1 <;> rfl
    rw [hfind]
  · intro cid conn ok now h; simp [stop_client, h]

/-- Witness for C6's amended theorem on the concrete C6 table. -/
theorem c6_resolution_order_witness :
    stop_resolution c6Table (chars "abc") = .internalId
    ∧ stop_resolution c6Table (chars "ollama")
      = amended_stop_resolution c6Table (chars "ollama")
    ∧ stop_client c6Table (chars "zzz") true true 0 = (false, c6Table) := by
  refine ⟨(c6_resolution_order c6Table (chars "abc")).1 (by decide),
    (c6_resolution_order c6Table (chars "ollama")).2.1 ?_,
    (c6_resolution_order c6Table (chars "zzz")).2.2 (chars "zzz") true true 0 (by decide)⟩
  intro p hp
  simp [c6Table] at hp
  subst hp
  rfl

/-! ## Claims C2 and C3: `submit_slurm_job` -/

theorem digit_not_ws {c : Char} (h : c.isDigit = true) : c.isWhitespace = false := by
  by_contra hw
  rw [Bool.not_eq_false] at hw
  simp only [Char.isWhitespace, Bool.or_eq_true, decide_eq_true_eq] at hw
  rcases hw with ((h1 | h1) | h1) | h1 <;> subst h1 <;> exact absurd h (by decide)

theorem splitOnChar_single (sep : Char) (l : Str) (h : ∀ c ∈ l, c ≠ sep) :
    splitOnChar sep l = [l] := by
  induction l with
  | nil => rfl
  | cons c rest ih =>
    have hc : c ≠ sep := h c (List.mem_cons_self c rest)
    have hrest := ih (fun c' hc' => h c' (List.mem_cons_of_mem _ hc'))
    simp [splitOnChar, hc, hrest]

theorem wsTokensAux_all_nonws (l : Str) :
    ∀ acc, l ≠ [] → (∀ c ∈ l, c.isWhitespace = false) →
    wsTokensAux l acc = [acc.reverse ++ l] := by
  induction l with
  | nil => intro acc hl _; cases hl rfl
  | cons c rest ih =>
    intro acc _ h
    have hc := h c (List.mem_cons_self c rest)
    by_cases hr : rest = []
    · subst hr
      simp [wsTokensAux, hc]
    · have hrec := ih (c :: acc) hr (fun c' hc' => h c' (List.mem_cons_of_mem _ hc'))
      simp [wsTokensAux, hc, hrec]

theorem wsTokensAux_space_split (a b : Str) :
    ∀ acc, wsTokensAux (a ++ ' ' :: b) acc
      = wsTokensAux (a ++ [' ']) acc ++ wsTokensAux b [] := by
  have hsp : (' ').isWhitespace = true := rfl
  induction a with
  | nil =>
    intro acc
    by_cases ha : acc = [] <;> simp [wsTokensAux, hsp, ha]
  | cons c a' ih =>
    intro acc
    by_cases hc : c.isWhitespace
    · by_cases ha : acc = [] <;> simp [wsTokensAux, hc, ha, ih]
    · simp [wsTokensAux, hc, ih]

theorem parseSbatchStdout_of_ack (stdout d : Str)
    (hs : pyStrip stdout = chars "Submitted batch job " ++ d)
    (hd : d ≠ []) (hdig : ∀ c ∈ d, c.isDigit = true) :
    parseSbatchStdout stdout = some d := by
  have hnl : ∀ c ∈ chars "Submitted batch job " ++ d, c ≠ '\n' := by
    intro c hc
    rcases List.mem_append.mp hc with h | h
    · intro he; subst he; revert h; decide
    · intro he; subst he; exact absurd (hdig _ h) (by decide)
  have hsplit : splitOnChar '\n' (pyStrip stdout)
      = [chars "Submitted batch job " ++ d] := by
    rw [hs]; exact splitOnChar_single _ _ hnl
  have hinf : isInfixB submitPhrase (chars "Submitted batch job " ++ d) = true := by
    simp only [isInfixB, decide_eq_true_eq]
    exact ⟨[], ' ' :: d, rfl⟩
  unfold parseSbatchStdout
  rw [hsplit, List.find?_cons_of_pos _ hinf]
  have heq : chars "Submitted batch job " ++ d
      = chars "Submitted batch job" ++ ' ' :: d := rfl
  rw [heq]
  show (wsTokens (chars "Submitted batch job" ++ ' ' :: d)).getLast? = some d
  unfold wsTokens
  rw [wsTokensAux_space_split (chars "Submitted batch job") d []]
  have htok : wsTokensAux d [] = [d] := by
    have := wsTokensAux_all_nonws d [] hd (fun c hc => digit_not_ws (hdig c hc))
    simpa using this
  rw [htok]
  exact List.getLast?_concat _

/-- C2: once the submit step is reached, an exit code of 0 together with an
acknowledgement line `Submitted batch job <digits>` makes `submit_slurm_job`
return exactly that digit string; stdout without the phrase, or a nonzero
exit code, yields `None`. -/
theorem c2_submit_parses_ack (submit : CmdResult) (d : Str) :
    (submit.exitCode = 0 →
      pyStrip submit.stdout = chars "Submitted batch job " ++ d →
      d ≠ [] → (∀ c ∈ d, c.isDigit = true) →
      (submit_slurm_job true 0 submit).jobId = some d)
    ∧ (submit.exitCode = 0 →
      (∀ l ∈ splitOnChar '\n' (pyStrip submit.stdout),
        isInfixB submitPhrase l = false) →
      (submit_slurm_job true 0 submit).jobId = none)
    ∧ (submit.exitCode ≠ 0 → (submit_slurm_job true 0 submit).jobId = none) := by
  refine ⟨?_, ?_, ?_⟩
  · intro h0 hs hd hdig
    have hjid : (submit_slurm_job true 0 submit).jobId
        = parseSbatchStdout submit.stdout := by
      simp [submit_slurm_job, h0]
    rw [hjid]
    exact parseSbatchStdout_of_ack _ _ hs hd hdig
  · intro h0 hnone
    have hparse : parseSbatchStdout submit.stdout = none := by
      unfold parseSbatchStdout
      rw [List.find?_eq_none.mpr (fun l hl => by simp [hnone l hl])]
    simp [submit_slurm_job, h0, hparse]
  · intro h0
    simp [submit_slurm_job, h0]

/-- Witness for C2: the spec's concrete scenario (job id 4821), a stdout
without the phrase, and a nonzero exit code. -/
theorem c2_submit_parses_ack_witness :
    (submit_slurm_job true 0 ⟨0, chars "Submitted batch job 4821\n", []⟩).jobId
      = some (chars "4821")
    ∧ (submit_slurm_job true 0 ⟨0, chars "error: no partition\n", []⟩).jobId = none
    ∧ (submit_slurm_job true 0 ⟨1, chars "Submitted batch job 4821\n", []⟩).jobId
      = none := by
  refine ⟨?_, ?_, ?_⟩
  · exact (c2_submit_parses_ack ⟨0, chars "Submitted batch job 4821\n", []⟩
      (chars "4821")).1 rfl (by decide) (by decide) (by decide)
  · exact (c2_submit_parses_ack ⟨0, chars "error: no partition\n", []⟩ []).2.1
      rfl (by decide)
  · exact (c2_submit_parses_ack ⟨1, chars "Submitted batch job 4821\n", []⟩ []).2.2
      (by decide)

/-- C3 counterexample: on upload failure the local temp script file
survives the call, and on chmod failure both the local temp file and the
uploaded remote copy survive — contradicting "no residual files remain in
either location on any failure". -/
theorem c3_counterexample :
    submit_slurm_job false 0 ⟨0, chars "Submitted batch job 4821\n", []⟩
      = { jobId := none, localTempExists := true, remoteScriptExists := false }
    ∧ submit_slurm_job true 1 ⟨0, chars "Submitted batch job 4821\n", []⟩
      = { jobId := none, localTempExists := true, remoteScriptExists := true } := by
  decide

/-- C3 amended: both the local temp file and the remote copy are deleted
exactly on the paths that reach the submit step (upload and chmod
succeeded), whatever the submit/parse outcome; on upload failure the local
temp file remains, and on chmod failure both remain. -/
theorem c3_cleanup_when_submit_reached (submit : CmdResult) (chmodExit : Nat) :
    (submit_slurm_job true 0 submit).localTempExists = false
    ∧ (submit_slurm_job true 0 submit).remoteScriptExists = false
    ∧ (chmodExit ≠ 0 →
        submit_slurm_job true chmodExit submit
          = { jobId := none, localTempExists := true, remoteScriptExists := true })
    ∧ submit_slurm_job false chmodExit submit
      = { jobId := none, localTempExists := true, remoteScriptExists := false } := by
  refine ⟨?_, ?_, ?_, ?_⟩
  · simp [submit_slurm_job]
  · simp [submit_slurm_job]
  · intro h; simp [submit_slurm_job, h]
  · simp [submit_slurm_job]

/-- Witness for C3's amended theorem at concrete chmod exit codes. -/
theorem c3_cleanup_when_submit_reached_witness :
    submit_slurm_job true 1 ⟨0, [], []⟩
      = { jobId := none, localTempExists := true, remoteScriptExists := true }
    ∧ (submit_slurm_job true 0 ⟨0, [], []⟩).localTempExists = false := by
  exact ⟨(c3_cleanup_when_submit_reached ⟨0, [], []⟩ 1).2.2.1 (by decide),
    (c3_cleanup_when_submit_reached ⟨0, [], []⟩ 0).1⟩

/-! ## Claim C1 -/

theorem jn_lit_false {lit : Str}
    (h : (isPrefixB (chars "#SBATCH --job-name=") lit
          || isPrefixB lit (chars "#SBATCH --job-name=")) = false)
    (v : Str) : isJobNameLine (lit ++ v) = false := by
  rw [Bool.or_eq_false_iff] at h
  apply isJobNameLine_lit_append
  · intro hp; have h1 := h.1; simp [isPrefixB, hp] at h1
  · intro hp; have h2 := h.2; simp [isPrefixB, hp] at h2

theorem jn_lit_true (v : Str) :
    isJobNameLine (chars "#SBATCH --job-name=" ++ v) = true := by
  simp only [isJobNameLine, isPrefixB, decide_eq_true_eq]
  exact List.prefix_append _ _

theorem jn_joinWith_apptainer (l : List Str) :
    isJobNameLine (joinWith (chars " ") (chars "apptainer exec" :: l)) = false := by
  obtain ⟨t, ht⟩ := joinWith_cons_exists (chars " ") (chars "apptainer exec") l
  rw [ht]
  exact jn_lit_false (by decide) t

theorem jn_serviceContainerCommand (svc : ServiceSpec) (cfg : GlobalConfig) :
    isJobNameLine (serviceContainerCommand svc cfg) = false := by
  unfold serviceContainerCommand
  simp only [List.singleton_append, List.cons_append, List.append_assoc]
  exact jn_joinWith_apptainer _

theorem countP_jn_optDirective (r : List (Str × Str)) (key flag : Str)
    (h : (isPrefixB (chars "#SBATCH --job-name=") flag
          || isPrefixB flag (chars "#SBATCH --job-name=")) = false) :
    (optDirective r key flag).countP isJobNameLine = 0 := by
  cases hd : dictGet r key with
  | none => simp [optDirective, hd]
  | some v =>
    by_cases hv : v = []
    · simp [optDirective, hd, hv]
    · simp [optDirective, hd, hv, List.countP_cons, jn_lit_false h v]

theorem countP_jn_directives (svc : ServiceSpec) (cfg : GlobalConfig)
    (acct job_id : Str) :
    (slurmDirectiveLines svc cfg acct job_id).countP isJobNameLine = 1 := by
  unfold slurmDirectiveLines
  have f0 : isJobNameLine (chars "#!/bin/bash -l") = false := by decide
  have htime : ∀ v, isJobNameLine (chars "#SBATCH --time=" ++ v) = false :=
    jn_lit_false (by decide)
  have hqos : ∀ v, isJobNameLine (chars "#SBATCH --qos=" ++ v) = false :=
    jn_lit_false (by decide)
  have hpart : ∀ v, isJobNameLine (chars "#SBATCH --partition=" ++ v) = false :=
    jn_lit_false (by decide)
  have hacc : ∀ v, isJobNameLine (chars "#SBATCH --account=" ++ v) = false :=
    jn_lit_false (by decide)
  have hnodes : ∀ v, isJobNameLine (chars "#SBATCH --nodes=" ++ v) = false :=
    jn_lit_false (by decide)
  have hnt : ∀ v, isJobNameLine (chars "#SBATCH --ntasks=" ++ v) = false :=
    jn_lit_false (by decide)
  have hntpn : ∀ v, isJobNameLine (chars "#SBATCH --ntasks-per-node=" ++ v) = false :=
    jn_lit_false (by decide)
  have hg := countP_jn_optDirective svc.resources (chars "gres")
    (chars "#SBATCH --gres=") (by decide)
  have hm := countP_jn_optDirective svc.resources (chars "mem")
    (chars "#SBATCH --mem=") (by decide)
  have hc := countP_jn_optDirective svc.resources (chars "cpus_per_task")
    (chars "#SBATCH --cpus-per-task=") (by decide)
  simp [List.countP_cons, List.countP_append, f0, jn_lit_true, htime, hqos,
    hpart, hacc, hnodes, hnt, hntpn, hg, hm, hc]

theorem countP_jn_envLines (env : List (Str × Str)) :
    (envLines env).countP isJobNameLine = 0 := by
  unfold envLines
  have hexp : ∀ v, isJobNameLine (chars "export " ++ v) = false :=
    jn_lit_false (by decide)
  have hmap : ∀ p : Str × Str,
      isJobNameLine (chars "export " ++ p.1 ++ chars "=" ++ p.2) = false := by
    intro p
    simp only [List.append_assoc]
    exact hexp _
  have f0 : isJobNameLine (chars "# Set environment variables") = false := by decide
  have f1 : isJobNameLine ([] : Str) = false := by decide
  split_ifs
  · simp only [List.countP_cons, List.countP_append, List.countP_map]
    have hz : List.countP (isJobNameLine ∘ fun p : Str × Str =>
        chars "export " ++ p.1 ++ chars "=" ++ p.2) env = 0 := by
      apply List.countP_eq_zero.mpr
      intro p _
      simp [Function.comp, List.append_assoc, hexp]
    rw [hz]
    simp [f0, f1]
  · rfl

theorem countP_jn_buildCommands (svc : ServiceSpec) (cfg : GlobalConfig) :
    (serviceBuildCommands svc cfg).countP isJobNameLine = 0 := by
  cases hds : serviceDockerSource svc cfg with
  | none => simp [serviceBuildCommands, hds]
  | some ds =>
    have hmkdir : ∀ v, isJobNameLine (chars "mkdir -p " ++ v) = false :=
      jn_lit_false (by decide)
    have hif : ∀ v, isJobNameLine (chars "if [ ! -f \"" ++ v) = false :=
      jn_lit_false (by decide)
    have hechoC : ∀ v, isJobNameLine (chars "    echo \"Container " ++ v) = false :=
      jn_lit_false (by decide)
    have hbuild : ∀ v, isJobNameLine (chars "    apptainer build " ++ v) = false :=
      jn_lit_false (by decide)
    have f1 : isJobNameLine (chars "# Container management") = false := by decide
    have f2 : isJobNameLine
      (chars "    echo \"Starting container build at $(date)\"") = false := by decide
    have f3 : isJobNameLine (chars "    if [ $? -eq 0 ]; then") = false := by decide
    have f4 : isJobNameLine
      (chars "        echo \"Container built successfully at $(date)\"") = false := by
      decide
    have f5 : isJobNameLine (chars "    else") = false := by decide
    have f6 : isJobNameLine
      (chars "        echo \"Container build failed at $(date)\"") = false := by decide
    have f7 : isJobNameLine (chars "        exit 1") = false := by decide
    have f8 : isJobNameLine (chars "    fi") = false := by decide
    have f9 : isJobNameLine (chars "else") = false := by decide
    have f10 : isJobNameLine (chars "fi") = false := by decide
    have f11 : isJobNameLine ([] : Str) = false := by decide
    simp only [serviceBuildCommands, hds]
    split_ifs <;>
      simp [List.countP_cons, List.countP_append, List.append_assoc, hmkdir, hif,
        hechoC, hbuild, f1, f2, f3, f4, f5, f6, f7, f8, f9, f10, f11]

theorem countP_jn_hostLines (th : Option Str) :
    (hostLines th).countP isJobNameLine = 0 := by
  have hexp : ∀ v, isJobNameLine (chars "export TARGET_SERVICE_HOST=" ++ v) = false :=
    jn_lit_false (by decide)
  have f1 : isJobNameLine ([] : Str) = false := by decide
  cases th with
  | none => rfl
  | some h =>
    by_cases hh : h = [] <;> simp [hostLines, hh, List.countP_cons, hexp, f1]

theorem countP_jn_serviceCommands (svc : ServiceSpec) (cfg : GlobalConfig) :
    (serviceScriptCommands svc cfg).countP isJobNameLine = 0 := by
  unfold serviceScriptCommands healthCheckCommands
  have hstart : ∀ v, isJobNameLine (chars "# Start the " ++ v) = false :=
    jn_lit_false (by decide)
  have hcc := jn_serviceContainerCommand svc cfg
  have hkeep : ∀ v, isJobNameLine
      (chars "# Keep the job alive and monitor " ++ v) = false :=
    jn_lit_false (by decide)
  have hecho : ∀ v, isJobNameLine (chars "echo '" ++ v) = false :=
    jn_lit_false (by decide)
  have f1 : isJobNameLine ([] : Str) = false := by decide
  have f2 : isJobNameLine (chars "sleep 30  # Allow service to start") = false := by
    decide
  have f3 : isJobNameLine (chars "# Simple monitoring loop") = false := by decide
  have f4 : isJobNameLine (chars "while kill -0 $! 2>/dev/null; do") = false := by
    decide
  have f5 : isJobNameLine (chars "    sleep 60") = false := by decide
  have f6 : isJobNameLine (chars "done") = false := by decide
  simp [List.countP_cons, List.countP_append, List.append_assoc, hstart, hcc,
    hkeep, hecho, f1, f2, f3, f4, f5, f6]

/-- C1 counterexample: a service recipe supplying the resource key `foo`
renders successfully, but `foo` appears in no line of the script at all —
neither as an `#SBATCH` directive nor as an environment export — so "every
key supplied in the job's resources map appears in the script" fails. -/
theorem c1_counterexample :
    dictGet c1Svc.resources (chars "foo") = some (chars "x")
    ∧ generate_slurm_script c1Svc c1Cfg (chars "abc") none = .ok c1Lines
    ∧ c1Lines.countP (fun l => isInfixB (chars "foo") l) = 0 := by
  refine ⟨by decide, rfl, by decide⟩

/-- C1 amended: for every service recipe whose configuration carries the
SLURM account, the rendered script contains exactly one job-name directive,
its value is `<name>_<internalId>`, and every *recognized* resource key
(time, qos, partition, account, nodes, ntasks, ntasks_per_node, and — when
their value is truthy — gres, mem, cpus_per_task) appears as an `#SBATCH`
directive carrying the job-specific value, overriding the global default
key-by-key; unrecognized resource keys are silently ignored. -/
theorem c1_script_directives (svc : ServiceSpec) (cfg : GlobalConfig)
    (job_id : Str) (th : Option Str) (acct : Str) (lines : List Str)
    (hacct : dictGet cfg.slurm (chars "account") = some acct)
    (hok : generate_slurm_script svc cfg job_id th = .ok lines) :
    lines.countP isJobNameLine = 1
    ∧ chars "#SBATCH --job-name=" ++ (svc.name ++ (chars "_" ++ job_id)) ∈ lines
    ∧ (∀ v, dictGet svc.resources (chars "time") = some v →
        chars "#SBATCH --time=" ++ v ∈ lines)
    ∧ (∀ v, dictGet svc.resources (chars "qos") = some v →
        chars "#SBATCH --qos=" ++ v ∈ lines)
    ∧ (∀ v, dictGet svc.resources (chars "partition") = some v →
        chars "#SBATCH --partition=" ++ v ∈ lines)
    ∧ (∀ v, dictGet svc.resources (chars "account") = some v →
        chars "#SBATCH --account=" ++ v ∈ lines)
    ∧ (∀ v, dictGet svc.resources (chars "nodes") = some v →
        chars "#SBATCH --nodes=" ++ v ∈ lines)
    ∧ (∀ v, dictGet svc.resources (chars "ntasks") = some v →
        chars "#SBATCH --ntasks=" ++ v ∈ lines)
    ∧ (∀ v, dictGet svc.resources (chars "ntasks_per_node") = some v →
        chars "#SBATCH --ntasks-per-node=" ++ v ∈ lines)
    ∧ (∀ v, dictGet svc.resources (chars "gres") = some v → v ≠ [] →
        chars "#SBATCH --gres=" ++ v ∈ lines)
    ∧ (∀ v, dictGet svc.resources (chars "mem") = some v → v ≠ [] →
        chars "#SBATCH --mem=" ++ v ∈ lines)
    ∧ (∀ v, dictGet svc.resources (chars "cpus_per_task") = some v → v ≠ [] →
        chars "#SBATCH --cpus-per-task=" ++ v ∈ lines) := by
  have hlines : serviceScriptLines svc cfg acct job_id th = lines := by
    simp only [generate_slurm_script, hacct, Except.ok.injEq] at hok
    exact hok
  subst hlines
  have hfix : List.countP isJobNameLine
      [[], chars "# Load required modules", chars "module add Apptainer", []]
      = 0 := by decide
  refine ⟨?_, ?_, ?_, ?_, ?_, ?_, ?_, ?_, ?_, ?_, ?_, ?_⟩
  · unfold serviceScriptLines
    simp only [List.countP_append]
    rw [countP_jn_directives, countP_jn_envLines, countP_jn_buildCommands,
      countP_jn_hostLines, countP_jn_serviceCommands, hfix]
  · simp [serviceScriptLines, slurmDirectiveLines]
  · intro v hv
    simp [serviceScriptLines, slurmDirectiveLines, finalCfg, dictGetD, hv]
  · intro v hv
    simp [serviceScriptLines, slurmDirectiveLines, finalCfg, dictGetD, hv]
  · intro v hv
    simp [serviceScriptLines, slurmDirectiveLines, finalCfg, dictGetD, hv]
  · intro v hv
    simp [serviceScriptLines, slurmDirectiveLines, finalCfg, dictGetD, hv]
  · intro v hv
    simp [serviceScriptLines, slurmDirectiveLines, finalCfg, dictGetD, hv]
  · intro v hv
    simp [serviceScriptLines, slurmDirectiveLines, finalCfg, dictGetD, hv]
  · intro v hv
    simp [serviceScriptLines, slurmDirectiveLines, finalCfg, dictGetD, hv]
  · intro v hv hne
    simp [serviceScriptLines, slurmDirectiveLines, optDirective, hv, hne]
  · intro v hv hne
    simp [serviceScriptLines, slurmDirectiveLines, optDirective, hv, hne]
  · intro v hv hne
    simp [serviceScriptLines, slurmDirectiveLines, optDirective, hv, hne]

/-- Witness for C1's amended theorem at a concrete recipe with overriding
time/gres/mem resources. -/
theorem c1_script_directives_witness :
    generate_slurm_script w1Svc w1Cfg (chars "j7") none = .ok w1Lines
    ∧ w1Lines.countP isJobNameLine = 1
    ∧ chars "#SBATCH --job-name=" ++ (w1Svc.name ++ (chars "_" ++ chars "j7"))
        ∈ w1Lines
    ∧ chars "#SBATCH --time=" ++ chars "02:00:00" ∈ w1Lines
    ∧ chars "#SBATCH --gres=" ++ chars "gpu:2" ∈ w1Lines
    ∧ chars "#SBATCH --mem=" ++ chars "16G" ∈ w1Lines := by
  have h := c1_script_directives w1Svc w1Cfg (chars "j7") none (chars "p1")
    w1Lines rfl rfl
  exact ⟨rfl, h.1, h.2.1, h.2.2.1 (chars "02:00:00") rfl,
    h.2.2.2.2.2.2.2.2.2.1 (chars "gpu:2") rfl (by decide),
    h.2.2.2.2.2.2.2.2.2.2.1 (chars "16G") rfl (by decide)⟩

end HpcOrch
